import Mathlib

/-!
Verification development for the tiered memory and context-assembly subsystem
of an interactive narrative generator (backend: `memory_utils.py`,
`enhanced_models.py`, `enhanced_app.py`).

The Python source is shallowly embedded: text is `String` (`List Char` data),
timestamps are integers, float scores are rationals (all scores in the source
are small dyadic values, so rational arithmetic is exact), the database is
explicit lists of records, and the regular-expression heuristics are embedded
by a small backtracking matcher whose alternative ordering mirrors Python
`re` semantics (leftmost match, left-to-right alternation, lazy `.+?`
shortest-first, greedy `\w+` longest-first).
-/

/-- Characters of a piece of text, the `data` of a `String`. -/
abbrev Chars := List Char

/-- Model of Python `str.lower` (ASCII case mapping, which covers every text
the source manipulates). -/
def lowerStr (s : String) : String := ⟨s.data.map Char.toLower⟩

/-- Model of Python `needle in haystack` substring containment on text. -/
def containsSub (needle : Chars) : Chars → Bool
  | [] => needle.isPrefixOf []
  | c :: t => needle.isPrefixOf (c :: t) || containsSub needle t

/-- Model of Python `str.strip()`: drop leading and trailing whitespace. -/
def pyStrip (s : Chars) : Chars :=
  ((s.dropWhile Char.isWhitespace).reverse.dropWhile Char.isWhitespace).reverse

/-- Model of Python slicing `s[:n]`. -/
def pyTake (s : Chars) (n : Nat) : Chars := s.take n

/-- Helper for `pyTitle`: the Bool records whether the previous character was
alphabetic. -/
def pyTitleAux : Bool → Chars → Chars
  | _, [] => []
  | prevAlpha, c :: t =>
    (if c.isAlpha then (if prevAlpha then c.toLower else c.toUpper) else c)
      :: pyTitleAux c.isAlpha t

/-- Model of Python `str.title()`: first letter of each alphabetic run
uppercased, the rest lowercased. -/
def pyTitle (s : Chars) : Chars := pyTitleAux false s

/-- Model of Python `str.capitalize()`: first character uppercased, the rest
lowercased. -/
def pyCapitalize (s : Chars) : Chars :=
  match s with
  | [] => []
  | c :: t => c.toUpper :: t.map Char.toLower

/-- Model of the source idiom `action[0].upper() + action[1:]` (only the first
character is uppercased, the rest kept). -/
def upperFirst (s : Chars) : Chars :=
  match s with
  | [] => []
  | c :: t => c.toUpper :: t

/-- Model of Python `sep.join(parts)`. -/
def pyJoin (sep : String) : List String → String
  | [] => ""
  | [x] => x
  | x :: y :: rest => x ++ sep ++ pyJoin sep (y :: rest)

/-!
The regular-expression matcher. A matcher, applied to an input suffix,
returns every way of matching a prefix of that suffix as a pair of the
number of characters consumed and the list of captured groups, ordered by
backtracking priority: the head is the alternative Python `re` commits to.
-/

/-- A matcher: input suffix to prioritized list of (consumed, captures). -/
abbrev RMatch := Chars → List (Nat × List Chars)

/-- Literal text. -/
def mlit (w : String) : RMatch := fun s =>
  if w.data.isPrefixOf s then [(w.data.length, [])] else []

/-- Empty pattern, the unit of sequencing. -/
def meps : RMatch := fun _ => [(0, [])]

/-- Sequencing: earlier sub-pattern alternatives vary slowest, which is the
backtracking order of Python `re`. -/
def mseq (p q : RMatch) : RMatch := fun s =>
  (p s).flatMap (fun a =>
    (q (s.drop a.1)).map (fun b => (a.1 + b.1, a.2 ++ b.2)))

/-- Sequencing of a list of patterns. -/
def mseqs (ps : List RMatch) : RMatch := ps.foldr mseq meps

/-- Alternation of literal words, tried left to right like `(?:w1|w2|…)`. -/
def malts (ws : List String) : RMatch := fun s =>
  (ws.map (fun w => mlit w s)).flatten

/-- Capture group `(p)`: records the consumed text as a group. -/
def mcap (p : RMatch) : RMatch := fun s =>
  (p s).map (fun a => (a.1, a.2 ++ [s.take a.1]))

/-- Lazy `.+?`: one or more non-newline characters, shortest first. -/
def mlazyDotPlus : RMatch := fun s =>
  (List.range (s.takeWhile (fun c => c ≠ '\n')).length).map (fun k => (k + 1, ([] : List Chars)))

/-- Word character of `\w` (ASCII view, all source texts are ASCII). -/
def isWordChar (c : Char) : Bool := c.isAlphanum || c == '_'

/-- Greedy `\w+`: one or more word characters, longest first. -/
def mwordPlus : RMatch := fun s =>
  let L := (s.takeWhile isWordChar).length
  (List.range L).map (fun k => (L - k, ([] : List Chars)))

/-- Model of `re.search`: the leftmost match position, with the consumed
length and captures of the highest-priority alternative there. -/
def msearch (p : RMatch) : Chars → Option (Nat × Nat × List Chars)
  | [] =>
    match (p []).head? with
    | some a => some (0, a.1, a.2)
    | none => none
  | c :: t =>
    match (p (c :: t)).head? with
    | some a => some (0, a.1, a.2)
    | none => (msearch p t).map (fun r => (r.1 + 1, r.2))

/-- Fuelled scan of `re.findall`: repeatedly take the leftmost match and
continue after its end (every source pattern consumes at least one
character, the `max · 1` only guards the recursion). -/
def mfindallFuel (p : RMatch) : Nat → Chars → List (List Chars)
  | 0, _ => []
  | fuel + 1, s =>
    match msearch p s with
    | none => []
    | some (i, n, caps) => caps :: mfindallFuel p fuel (s.drop (i + max n 1))

/-- Model of `re.findall`: capture tuples of the non-overlapping leftmost
matches, scanning left to right. -/
def mfindall (p : RMatch) (s : Chars) : List (List Chars) :=
  mfindallFuel p (s.length + 1) s

/-- First capture group of a match result. -/
def cap1 (caps : List Chars) : Chars := caps.headD []

/-- Second capture group of a match result. -/
def cap2 (caps : List Chars) : Chars := (caps.drop 1).headD []

/-!
Data model (`enhanced_models.py`). Identifiers are strings (the source uses
random UUID4 strings), timestamps are integers (`datetime` instants),
float scores are rationals.
-/

/-- Row of the `messages` table (`enhanced_models.Message`). -/
structure Message where
  id : String
  conversation_id : String
  role : String
  content : String
  importance_score : ℚ := 1
  memory_type : String := "short"
  created_at : Int
deriving Repr, DecidableEq

/-- Row of the `conversations` table (`enhanced_models.Conversation`). -/
structure Conversation where
  id : String
  story_id : String
deriving Repr, DecidableEq

/-- Row of the `story_memories` table (`enhanced_models.StoryMemory`).
`relevance_tags` and `source_message_ids` hold the parsed JSON arrays the
source serializes with `json.dumps`. -/
structure StoryMemory where
  story_id : String
  memory_type : String
  title : String
  content : String
  importance_score : ℚ
  relevance_tags : List String
  source_message_ids : List String
  created_at : Int := 0
  last_referenced : Int := 0
deriving Repr, DecidableEq

/-- Row of the `message_summaries` table (`enhanced_models.MessageSummary`). -/
structure MessageSummary where
  conversation_id : String
  summary_text : String
  original_message_count : Nat
  start_message_id : String
  end_message_id : String
  time_range_start : Int
  time_range_end : Int
  compression_ratio : ℚ
deriving Repr, DecidableEq

/-!
`MemoryManager` (`enhanced_models.py`, lines 252-300).
-/

/-- Action keywords of `classify_message_importance` for player messages. -/
def action_keywords : List String :=
  ["attack", "cast", "use", "go", "take", "say", "ask", "search", "open"]

/-- Plot keywords of `classify_message_importance` for ai messages. -/
def plot_keywords : List String :=
  ["suddenly", "appears", "reveals", "discovers", "dies", "transforms"]

/-- Embedding of `MemoryManager.classify_message_importance`. -/
def classify_message_importance (message_content : String) (role : String) : ℚ :=
  let importance : ℚ := 1
  let importance : ℚ :=
    if role = "player" then
      let importance := importance + 2
      if action_keywords.any
          (fun keyword => containsSub keyword.data (lowerStr message_content).data) then
        importance + 1
      else importance
    else if role = "ai" then
      let importance :=
        if plot_keywords.any
            (fun keyword => containsSub keyword.data (lowerStr message_content).data) then
          importance + 2
        else importance
      if message_content.length > 200 then importance + 1/2 else importance
    else importance
  min importance 10

/-- Embedding of `MemoryManager.determine_memory_type`. -/
def determine_memory_type (importance_score : ℚ) (message_age_hours : ℚ) : String :=
  if importance_score ≥ 7 then "critical"
  else if importance_score ≥ 5 then "long"
  else if message_age_hours ≤ 2 then "short"
  else if message_age_hours ≤ 24 then "medium"
  else "long"

/-!
`StoryMemoryExtractor` (`memory_utils.py`, lines 176-356). Each extraction
pass scans only ai-role messages, runs `re.findall` of its patterns over the
lowercased content, and builds `StoryMemory` rows. The `now` argument stands
for the `datetime.utcnow()` defaults of `created_at`/`last_referenced`.
-/

/-- Pattern `r"(?:a|an|the) (.+?) (?:named|called) (\w+)"`. -/
def charPat1 : RMatch :=
  mseqs [malts ["a", "an", "the"], mlit " ", mcap mlazyDotPlus, mlit " ",
    malts ["named", "called"], mlit " ", mcap mwordPlus]

/-- Pattern `r"(\w+) (?:the|a|an) (.+?) (?:says|speaks|tells|whispers)"`. -/
def charPat2 : RMatch :=
  mseqs [mcap mwordPlus, mlit " ", malts ["the", "a", "an"], mlit " ",
    mcap mlazyDotPlus, mlit " ", malts ["says", "speaks", "tells", "whispers"]]

/-- Pattern `r"(?:meet|encounter|see) (?:a|an|the) (.+?) (?:named|called) (\w+)"`. -/
def charPat3 : RMatch :=
  mseqs [malts ["meet", "encounter", "see"], mlit " ", malts ["a", "an", "the"],
    mlit " ", mcap mlazyDotPlus, mlit " ", malts ["named", "called"], mlit " ",
    mcap mwordPlus]

/-- The `character_patterns` list of `_extract_character_memories`. -/
def character_patterns : List RMatch := [charPat1, charPat2, charPat3]

/-- Fact built per character match `(char_type, char_name)`, guarded by
`len(char_name) > 2 and char_name.isalpha()`. -/
def characterFactsOfMatch (story_id : String) (msg : Message) (now : Int)
    (caps : List Chars) : List StoryMemory :=
  let char_type := cap1 caps
  let char_name := cap2 caps
  if char_name.length > 2 && char_name.all Char.isAlpha then
    [{ story_id := story_id
       memory_type := "character"
       title := ⟨pyTitle char_name ++ " the ".data ++ char_type⟩
       content := ⟨"Character: ".data ++ pyTitle char_name ++ ", a ".data ++ char_type
         ++ ". First encountered in conversation.".data⟩
       importance_score := 6
       relevance_tags := ["character", ⟨char_name.map Char.toLower⟩, ⟨char_type⟩]
       source_message_ids := [msg.id]
       created_at := now
       last_referenced := now }]
  else []

/-- Embedding of `StoryMemoryExtractor._extract_character_memories`. -/
def extract_character_memories (messages : List Message) (story_id : String)
    (now : Int) : List StoryMemory :=
  messages.flatMap (fun msg =>
    if msg.role ≠ "ai" then []
    else character_patterns.flatMap (fun pattern =>
      (mfindall pattern (lowerStr msg.content).data).flatMap
        (characterFactsOfMatch story_id msg now)))

/-- Pattern `r"you (?:enter|arrive at|find yourself in) (?:a|an|the) (.+?)(?:\.|,)"`. -/
def locPat1 : RMatch :=
  mseqs [mlit "you ", malts ["enter", "arrive at", "find yourself in"], mlit " ",
    malts ["a", "an", "the"], mlit " ", mcap mlazyDotPlus, malts [".", ","]]

/-- Pattern `r"(?:the|a|an) (.+?) (?:stretches|extends|lies) before you"`. -/
def locPat2 : RMatch :=
  mseqs [malts ["the", "a", "an"], mlit " ", mcap mlazyDotPlus, mlit " ",
    malts ["stretches", "extends", "lies"], mlit " before you"]

/-- Pattern `r"you are (?:in|at|within) (?:a|an|the) (.+?)(?:\.|,)"`. -/
def locPat3 : RMatch :=
  mseqs [mlit "you are ", malts ["in", "at", "within"], mlit " ",
    malts ["a", "an", "the"], mlit " ", mcap mlazyDotPlus, malts [".", ","]]

/-- The `location_patterns` list of `_extract_location_memories`. -/
def location_patterns : List RMatch := [locPat1, locPat2, locPat3]

/-- Fact built per location match, guarded by `5 < len < 100` of the stripped
phrase. -/
def locationFactsOfMatch (story_id : String) (msg : Message) (now : Int)
    (caps : List Chars) : List StoryMemory :=
  let location := pyStrip (cap1 caps)
  if location.length > 5 && location.length < 100 then
    [{ story_id := story_id
       memory_type := "location"
       title := ⟨"Location: ".data ++ pyTitle location⟩
       content := ⟨"A location in the story: ".data ++ location
         ++ ". Visited during the adventure.".data⟩
       importance_score := 5
       relevance_tags := ["location", ⟨location.map Char.toLower⟩]
       source_message_ids := [msg.id]
       created_at := now
       last_referenced := now }]
  else []

/-- Embedding of `StoryMemoryExtractor._extract_location_memories`. -/
def extract_location_memories (messages : List Message) (story_id : String)
    (now : Int) : List StoryMemory :=
  messages.flatMap (fun msg =>
    if msg.role ≠ "ai" then []
    else location_patterns.flatMap (fun pattern =>
      (mfindall pattern (lowerStr msg.content).data).flatMap
        (locationFactsOfMatch story_id msg now)))

/-- Pattern `r"(you (?:defeat|kill|destroy) .+?)(?:\.|!)"`. -/
def evtPat1 : RMatch :=
  mseqs [mcap (mseqs [mlit "you ", malts ["defeat", "kill", "destroy"], mlit " ",
    mlazyDotPlus]), malts [".", "!"]]

/-- Pattern `r"(you (?:find|discover|obtain|gain) .+?)(?:\.|!)"`. -/
def evtPat2 : RMatch :=
  mseqs [mcap (mseqs [mlit "you ", malts ["find", "discover", "obtain", "gain"],
    mlit " ", mlazyDotPlus]), malts [".", "!"]]

/-- Pattern `r"(you (?:learn|realize|understand) .+?)(?:\.|!)"`. -/
def evtPat3 : RMatch :=
  mseqs [mcap (mseqs [mlit "you ", malts ["learn", "realize", "understand"],
    mlit " ", mlazyDotPlus]), malts [".", "!"]]

/-- Pattern `r"(something (?:happens|occurs|changes) .+?)(?:\.|!)"`. -/
def evtPat4 : RMatch :=
  mseqs [mcap (mseqs [mlit "something ", malts ["happens", "occurs", "changes"],
    mlit " ", mlazyDotPlus]), malts [".", "!"]]

/-- The `event_patterns` list of `_extract_event_memories`. -/
def extractor_event_patterns : List RMatch := [evtPat1, evtPat2, evtPat3, evtPat4]

/-- Fact built per event match, guarded by `10 < len < 200` of the stripped
match. -/
def eventFactsOfMatch (story_id : String) (msg : Message) (now : Int)
    (caps : List Chars) : List StoryMemory :=
  let event := pyStrip (cap1 caps)
  if event.length > 10 && event.length < 200 then
    [{ story_id := story_id
       memory_type := "event"
       title := ⟨"Event: ".data ++ pyTake event 50 ++ "...".data⟩
       content := ⟨"Important event: ".data ++ event⟩
       importance_score := 7
       relevance_tags := ["event", "important"]
       source_message_ids := [msg.id]
       created_at := now
       last_referenced := now }]
  else []

/-- Embedding of `StoryMemoryExtractor._extract_event_memories`. -/
def extract_event_memories (messages : List Message) (story_id : String)
    (now : Int) : List StoryMemory :=
  messages.flatMap (fun msg =>
    if msg.role ≠ "ai" then []
    else extractor_event_patterns.flatMap (fun pattern =>
      (mfindall pattern (lowerStr msg.content).data).flatMap
        (eventFactsOfMatch story_id msg now)))

/-- Pattern `r"(magic (?:works|functions|operates) .+?)(?:\.|!)"`. -/
def rulePat1 : RMatch :=
  mseqs [mcap (mseqs [mlit "magic ", malts ["works", "functions", "operates"],
    mlit " ", mlazyDotPlus]), malts [".", "!"]]

/-- Pattern `r"(the (?:curse|spell|enchantment) .+?)(?:\.|!)"`. -/
def rulePat2 : RMatch :=
  mseqs [mcap (mseqs [mlit "the ", malts ["curse", "spell", "enchantment"],
    mlit " ", mlazyDotPlus]), malts [".", "!"]]

/-- Pattern `r"(you (?:can|cannot|must|should) .+? because .+?)(?:\.|!)"`. -/
def rulePat3 : RMatch :=
  mseqs [mcap (mseqs [mlit "you ", malts ["can", "cannot", "must", "should"],
    mlit " ", mlazyDotPlus, mlit " because ", mlazyDotPlus]), malts [".", "!"]]

/-- Pattern `r"((?:in this world|here) .+?)(?:\.|!)"`. -/
def rulePat4 : RMatch :=
  mseqs [mcap (mseqs [malts ["in this world", "here"], mlit " ", mlazyDotPlus]),
    malts [".", "!"]]

/-- The `rule_patterns` list of `_extract_rule_memories`. -/
def rule_patterns : List RMatch := [rulePat1, rulePat2, rulePat3, rulePat4]

/-- Fact built per rule match, guarded by `15 < len < 300` of the stripped
match. -/
def ruleFactsOfMatch (story_id : String) (msg : Message) (now : Int)
    (caps : List Chars) : List StoryMemory :=
  let rule := pyStrip (cap1 caps)
  if rule.length > 15 && rule.length < 300 then
    [{ story_id := story_id
       memory_type := "rule"
       title := ⟨"Rule: ".data ++ pyTake rule 50 ++ "...".data⟩
       content := ⟨"World rule or mechanic: ".data ++ rule⟩
       importance_score := 13/2
       relevance_tags := ["rule", "world", "mechanic"]
       source_message_ids := [msg.id]
       created_at := now
       last_referenced := now }]
  else []

/-- Embedding of `StoryMemoryExtractor._extract_rule_memories`. -/
def extract_rule_memories (messages : List Message) (story_id : String)
    (now : Int) : List StoryMemory :=
  messages.flatMap (fun msg =>
    if msg.role ≠ "ai" then []
    else rule_patterns.flatMap (fun pattern =>
      (mfindall pattern (lowerStr msg.content).data).flatMap
        (ruleFactsOfMatch story_id msg now)))

/-!
`ConversationCompactor` (`memory_utils.py`, lines 22-173).
-/

/-- Pattern `r"you (?:find yourself|are|enter|approach) (?:in|at|near) (.+?)(?:\.|,|\n)"`. -/
def scenePat1 : RMatch :=
  mseqs [mlit "you ", malts ["find yourself", "are", "enter", "approach"], mlit " ",
    malts ["in", "at", "near"], mlit " ", mcap mlazyDotPlus, malts [".", ",", "\n"]]

/-- Pattern `r"the (.+?) (?:surrounds|stretches|looms)"`. -/
def scenePat2 : RMatch :=
  mseqs [mlit "the ", mcap mlazyDotPlus, mlit " ",
    malts ["surrounds", "stretches", "looms"]]

/-- Pattern `r"(?:before you|ahead) (?:lies|stands|sits) (.+?)(?:\.|,|\n)"`. -/
def scenePat3 : RMatch :=
  mseqs [malts ["before you", "ahead"], mlit " ", malts ["lies", "stands", "sits"],
    mlit " ", mcap mlazyDotPlus, malts [".", ",", "\n"]]

/-- The `patterns` list of `_extract_scene_info`. -/
def scene_patterns : List RMatch := [scenePat1, scenePat2, scenePat3]

/-- Captures of the first pattern in the list that `re.search` finds in the
text, the loop shape of `_extract_scene_info`. -/
def firstPatternCaps : List RMatch → Chars → Option (List Chars)
  | [], _ => none
  | p :: ps, s =>
    match msearch p s with
    | some r => some r.2.2
    | none => firstPatternCaps ps s

/-- Embedding of `ConversationCompactor._extract_scene_info`:
`match.group(1).strip()[:100]` of the first matching pattern, else `""`. -/
def extract_scene_info (text : String) : String :=
  match firstPatternCaps scene_patterns (lowerStr text).data with
  | some caps => ⟨pyTake (pyStrip (cap1 caps)) 100⟩
  | none => ""

/-- Pattern `r"(suddenly .+?)(?:\.|!|\n)"`. -/
def cevtPat1 : RMatch :=
  mseqs [mcap (mseqs [mlit "suddenly ", mlazyDotPlus]), malts [".", "!", "\n"]]

/-- Pattern `r"(you (?:discover|find|notice|see|hear) .+?)(?:\.|!|\n)"`. -/
def cevtPat2 : RMatch :=
  mseqs [mcap (mseqs [mlit "you ", malts ["discover", "find", "notice", "see", "hear"],
    mlit " ", mlazyDotPlus]), malts [".", "!", "\n"]]

/-- Pattern `r"((?:a|an|the) .+? (?:appears|emerges|arrives|attacks|speaks))(?:\.|!|\n)"`. -/
def cevtPat3 : RMatch :=
  mseqs [mcap (mseqs [malts ["a", "an", "the"], mlit " ", mlazyDotPlus, mlit " ",
    malts ["appears", "emerges", "arrives", "attacks", "speaks"]]), malts [".", "!", "\n"]]

/-- Pattern `r"(you feel .+?)(?:\.|!|\n)"`. -/
def cevtPat4 : RMatch :=
  mseqs [mcap (mseqs [mlit "you feel ", mlazyDotPlus]), malts [".", "!", "\n"]]

/-- The `event_patterns` list of `ConversationCompactor._extract_events`. -/
def compactor_event_patterns : List RMatch := [cevtPat1, cevtPat2, cevtPat3, cevtPat4]

/-- Embedding of `ConversationCompactor._extract_events`: per pattern, per
match of the lowercased text, `match.strip()[:150]`, kept if longer than 10
and capitalized; at most the first 3 events. -/
def extract_events (text : String) : List String :=
  (compactor_event_patterns.flatMap (fun pattern =>
    (mfindall pattern (lowerStr text).data).flatMap (fun caps =>
      let event := pyTake (pyStrip (cap1 caps)) 150
      if event.length > 10 then [(⟨pyCapitalize event⟩ : String)] else []))).take 3

/-- Apostrophe character, to spell the `"i'll "` filler. -/
def apos : Char := '\''

/-- The filler alternation of `_extract_player_action`, in the order the
regex `r"^(i |i'll |let me |i want to |i try to )"` tries them: because
`"i "` comes first, `"i want to go"` is only stripped to `"want to go"`. -/
def filler_prefixes : List Chars :=
  ["i ".data, ['i', apos, 'l', 'l', ' '], "let me ".data, "i want to ".data,
    "i try to ".data]

/-- The anchored `re.sub(…, '', text)`: remove the first filler that is a
prefix, at most once. -/
def stripFiller : List Chars → Chars → Chars
  | [], s => s
  | f :: fs, s => if f.isPrefixOf s then s.drop f.length else stripFiller fs s

/-- Embedding of `ConversationCompactor._extract_player_action`. -/
def extract_player_action (text : String) : String :=
  let cleaned := stripFiller filler_prefixes (pyStrip (lowerStr text).data)
  let action := pyStrip (pyTake cleaned 100)
  ⟨upperFirst action⟩

/-- One step of the message walk of `_generate_summary_text`: the state is
the accumulated `summary_parts` and the `current_scene`. -/
def summaryStep (st : List String × String) (msg : Message) : List String × String :=
  if msg.role = "ai" then
    let scene_info := extract_scene_info msg.content
    let st1 :=
      if scene_info ≠ "" ∧ scene_info ≠ st.2
      then (st.1 ++ ["Scene: " ++ scene_info], scene_info)
      else st
    (st1.1 ++ extract_events msg.content, st1.2)
  else if msg.role = "player" then
    let action := extract_player_action msg.content
    if action ≠ "" then (st.1 ++ ["Player: " ++ action], st.2) else st
  else st

/-- Embedding of `ConversationCompactor._generate_summary_text`. -/
def generate_summary_text (messages : List Message) : String :=
  if messages.isEmpty then ""
  else pyJoin " | " (messages.foldl summaryStep ([], "")).1

/-- Lexicographic byte order on text, the collation SQL `BETWEEN` applies to
the UUID strings of `Message.id` (ASCII, so codepoint order). -/
def charsLe : Chars → Chars → Bool
  | [], _ => true
  | _ :: _, [] => false
  | a :: as, b :: bs =>
    if a < b then true else if a = b then charsLe as bs else false

/-- The `order_by(Message.created_at)` of the source: a stable sort by
`created_at` (insertion sort, like SQL `ORDER BY` on the insertion-ordered
rows). -/
def sortByCreated (msgs : List Message) : List Message :=
  List.insertionSort (fun a b => a.created_at ≤ b.created_at) msgs

/-- The message query of `create_summary`: the conversation's messages,
filtered to `Message.id.between(start_id, end_id)` when a range is given
(SQL `BETWEEN` on string UUIDs is lexicographic), ordered by `created_at`. -/
def selectMessages (allMsgs : List Message) (conversation_id : String)
    (message_range : Option (String × String)) : List Message :=
  let query := allMsgs.filter (fun m => m.conversation_id == conversation_id)
  let query :=
    match message_range with
    | some r => query.filter (fun m => charsLe r.1.data m.id.data && charsLe m.id.data r.2.data)
    | none => query
  sortByCreated query

/-- The summary record `create_summary` builds and commits for the nonempty
selected message list `m0 :: rest`: the generated summary text, the message
count, the id/time range ends, and
`compression_ratio = original_length / len(summary_text)` (0 for an empty
summary text). -/
def mkSummary (cid : String) (m0 : Message) (rest : List Message) : MessageSummary :=
  let messages := m0 :: rest
  let summary_text := generate_summary_text messages
  let original_length : Nat := (messages.map (fun m => m.content.length)).sum
  let compression_ratio : ℚ :=
    if summary_text ≠ "" then (original_length : ℚ) / (summary_text.length : ℚ)
    else 0
  { conversation_id := cid
    summary_text := summary_text
    original_message_count := messages.length
    start_message_id := m0.id
    end_message_id := (rest.getLastD m0).id
    time_range_start := m0.created_at
    time_range_end := (rest.getLastD m0).created_at
    compression_ratio := compression_ratio }

/-- Embedding of `ConversationCompactor.create_summary`. The first argument
is the result of the conversation lookup; `allMsgs` is the messages table.
A returned summary is the record the source commits; `none` means nothing
is persisted. -/
def create_summary (conversation : Option Conversation) (allMsgs : List Message)
    (message_range : Option (String × String)) : Option MessageSummary :=
  match conversation with
  | none => none
  | some conv =>
    match selectMessages allMsgs conv.id message_range with
    | [] => none
    | m0 :: rest => some (mkSummary conv.id m0 rest)

/-!
The caller (`enhanced_app.py`): `should_summarize_conversation` and the
message-processing tail of `generate_story_response`.
-/

/-- Embedding of `should_summarize_conversation` (`enhanced_app.py`,
lines 422-427): total message count of the conversation, at least 20. -/
def should_summarize_conversation (allMsgs : List Message)
    (conversation_id : String) : Bool :=
  (allMsgs.filter (fun m => m.conversation_id == conversation_id)).length ≥ 20

/-- Embedding of `StoryMemoryExtractor.extract_memories_from_conversation`:
the conversation's messages in creation order through the four extraction
passes (each per-fact commit succeeds in this model, matching the
recoverable per-fact persistence of the source). -/
def extract_memories_from_conversation (conversation : Option Conversation)
    (allMsgs : List Message) (now : Int) : List StoryMemory :=
  match conversation with
  | none => []
  | some conv =>
    let messages := sortByCreated (allMsgs.filter (fun m => m.conversation_id == conv.id))
    extract_character_memories messages conv.story_id now
      ++ extract_location_memories messages conv.story_id now
      ++ extract_event_memories messages conv.story_id now
      ++ extract_rule_memories messages conv.story_id now

/-- Per-conversation persistent state touched by the request path: the
messages, story memories and summaries tables. -/
structure ConvState where
  msgs : List Message
  memories : List StoryMemory
  summaries : List MessageSummary
deriving Repr, DecidableEq

/-- The player message record the handler saves: the user input, classified
at age 0, created at instant `t`. -/
def mkPlayerMessage (conv : Conversation) (userInput pid : String) (t : Int) : Message :=
  let pScore := classify_message_importance userInput "player"
  { id := pid, conversation_id := conv.id, role := "player", content := userInput,
    importance_score := pScore, memory_type := determine_memory_type pScore 0,
    created_at := t }

/-- The ai message record the handler saves: the streamed text, classified at
age 0, created one instant after the player message. -/
def mkAiMessage (conv : Conversation) (aiText aid : String) (t : Int) : Message :=
  let aScore := classify_message_importance aiText "ai"
  { id := aid, conversation_id := conv.id, role := "ai", content := aiText,
    importance_score := aScore, memory_type := determine_memory_type aScore 0,
    created_at := t + 1 }

/-- One request of `generate_story_response` after the conversation exists
(`enhanced_app.py`, lines 225-298): save the player message (classified at
age 0), save the ai message (classified at age 0), extract memories from the
conversation, then summarize it when `should_summarize_conversation` holds.
`t` is the creation instant of the player message. -/
def processExchange (conv : Conversation) (st : ConvState)
    (userInput aiText : String) (pid aid : String) (t : Int) : ConvState :=
  let pmsg := mkPlayerMessage conv userInput pid t
  let amsg := mkAiMessage conv aiText aid t
  let msgs2 := st.msgs ++ [pmsg, amsg]
  let memories := st.memories ++ extract_memories_from_conversation (some conv) msgs2 (t + 1)
  let summaries :=
    if should_summarize_conversation msgs2 conv.id
    then st.summaries ++ (create_summary (some conv) msgs2 none).toList
    else st.summaries
  { msgs := msgs2, memories := memories, summaries := summaries }

/-- A run of exchanges against one conversation; the `k`-th exchange uses
fresh message ids and creation instants `2k`, `2k+1`. -/
def runExchanges (conv : Conversation) (st : ConvState) (k : Nat) :
    List (String × String) → ConvState
  | [] => st
  | e :: rest =>
    runExchanges conv
      (processExchange conv st e.1 e.2 ("m" ++ toString (2 * k))
        ("m" ++ toString (2 * k + 1)) (2 * (k : Int)))
      (k + 1) rest

/-!
`ContextBuilder` token trimming (`memory_utils.py`, lines 468-503). The
context object is modelled section by section: `story_setup` by the list of
its four string values, the three list sections by the lists of each item's
string values, which is what the token estimation loop of the source visits.
-/

/-- The context object built by `build_prompt_context`. -/
structure PromptContext where
  story_setup : List String
  recent_context : List (List String)
  important_memories : List (List String)
  conversation_summary : List (List String)
deriving Repr, DecidableEq

/-- Embedding of `ContextBuilder._estimate_tokens`: `len(text) // 4`. -/
def estimate_tokens (text : String) : Nat := text.length / 4

/-- Token estimate of one dict of the context: the sum over its values. -/
def sectionTokens (vals : List String) : Nat := (vals.map estimate_tokens).sum

/-- The `current_tokens` computation of `_trim_context_to_token_limit`. -/
def contextTokens (context : PromptContext) : Nat :=
  sectionTokens context.story_setup
    + (context.recent_context.map sectionTokens).sum
    + (context.important_memories.map sectionTokens).sum
    + (context.conversation_summary.map sectionTokens).sum

/-- Embedding of `ContextBuilder._trim_context_to_token_limit`. -/
def trim_context_to_token_limit (context : PromptContext) (max_tokens : Nat) :
    PromptContext :=
  if contextTokens context ≤ max_tokens then context
  else
    { story_setup := context.story_setup
      recent_context := context.recent_context.take 5
      important_memories := context.important_memories.take 4
      conversation_summary := context.conversation_summary.take 2 }

/-!
`MemoryMaintenanceService` (`memory_utils.py`, lines 506-611).
-/

/-- Embedding of `MemoryMaintenanceService.cleanup_old_memories` (default
`days_old = 30`): timestamps are in seconds, `cutoff = now - days_old` days.
Returns the surviving table and the count of deleted facts. -/
def cleanup_old_memories (memories : List StoryMemory) (now : Int)
    (days_old : Int) : List StoryMemory × Nat :=
  let cutoff := now - days_old * 86400
  let isOld := fun (m : StoryMemory) =>
    decide (m.created_at < cutoff) && decide (m.importance_score < 4)
      && decide (m.last_referenced < cutoff)
  (memories.filter (fun m => !(isOld m)), (memories.filter isOld).length)

/-- The grouping key of `consolidate_duplicate_memories`:
`(memory.memory_type, memory.title[:20])`. -/
def memKey (m : StoryMemory) : String × String :=
  (m.memory_type, ⟨pyTake m.title.data 20⟩)

/-- First-occurrence deduplication, the key order of a Python dict (and the
model of `list(set(…))`, whose order Python leaves unspecified). -/
def dedupKeepFirst {α : Type} [DecidableEq α] : List α → List α
  | [] => []
  | k :: t => k :: (dedupKeepFirst t).filter (fun x => x ≠ k)

/-- Stable insertion for the descending importance sort
`group.sort(key=lambda m: m.importance_score, reverse=True)`. -/
def insertByImportanceDesc (a : StoryMemory) : List StoryMemory → List StoryMemory
  | [] => [a]
  | x :: xs =>
    if a.importance_score < x.importance_score then x :: insertByImportanceDesc a xs
    else a :: x :: xs

/-- The stable descending sort by importance of a group. -/
def sortByImportanceDesc (l : List StoryMemory) : List StoryMemory :=
  l.foldr insertByImportanceDesc []

/-- Consolidation of one group: when it has more than one member, keep the
most important fact, collect the duplicates' contents that are not already
substrings of the kept content, extend the kept fact (content joined with
`" | "`, source ids deduplicated as a set) only when that collection is
nonempty, and delete the duplicates. -/
def mergeGroup (group : List StoryMemory) : List StoryMemory × Nat :=
  if 1 < group.length then
    match sortByImportanceDesc group with
    | [] => ([], 0)
    | keep_memory :: duplicates =>
      let additional_content :=
        (duplicates.filter
          (fun d => !(containsSub d.content.data keep_memory.content.data))).map
          (fun d => d.content)
      let source_ids := keep_memory.source_message_ids
        ++ (duplicates.map (fun d => d.source_message_ids)).flatten
      let kept :=
        if additional_content.isEmpty then keep_memory
        else
          { keep_memory with
            content := keep_memory.content ++ " | " ++ pyJoin " | " additional_content
            source_message_ids := dedupKeepFirst source_ids }
      ([kept], duplicates.length)
  else (group, 0)

/-- Embedding of `MemoryMaintenanceService.consolidate_duplicate_memories`,
applied to the story's facts: group by `memKey` in first-occurrence order,
merge each group, return the surviving table and the consolidated count. -/
def consolidate_duplicate_memories (memories : List StoryMemory) :
    List StoryMemory × Nat :=
  let keys := dedupKeepFirst (memories.map memKey)
  let results := keys.map (fun k => mergeGroup (memories.filter (fun m => decide (memKey m = k))))
  ((results.map Prod.fst).flatten, (results.map Prod.snd).sum)

/-!
Helper lemmas about the text utilities.
-/

theorem isPrefixOf_self (s : Chars) : s.isPrefixOf s = true := by
  induction s with
  | nil => rfl
  | cons c t ih => simp [List.isPrefixOf, ih]

theorem isPrefixOf_append_self (a b : Chars) : a.isPrefixOf (a ++ b) = true := by
  induction a with
  | nil => simp [List.isPrefixOf]
  | cons c t ih => simp [List.isPrefixOf, ih]

theorem containsSub_of_isPrefixOf {needle hay : Chars}
    (h : needle.isPrefixOf hay = true) : containsSub needle hay = true := by
  cases hay with
  | nil => simpa [containsSub] using h
  | cons c t => simp [containsSub, h]

theorem containsSub_self (s : Chars) : containsSub s s = true :=
  containsSub_of_isPrefixOf (isPrefixOf_self s)

theorem containsSub_cons {needle t : Chars} (c : Char)
    (h : containsSub needle t = true) : containsSub needle (c :: t) = true := by
  simp [containsSub, h]

theorem containsSub_append_left (a b : Chars) : containsSub a (a ++ b) = true :=
  containsSub_of_isPrefixOf (isPrefixOf_append_self a b)

theorem containsSub_append_right (a b : Chars) : containsSub b (a ++ b) = true := by
  induction a with
  | nil => simpa using containsSub_self b
  | cons c t ih => exact containsSub_cons c ih

/-!
Claim C4 and claim C5: bounds of the Importance Classifier.
-/

/-- C4: for every message text and every role, `classify_message_importance`
returns at most 4.0 — the maximum, reached by a player message containing an
action keyword — so the clamp at 10.0 never activates, and
`determine_memory_type(score, 0)`, the tier assigned at creation, is always
`"short"`. -/
theorem classify_max_four_always_short :
    (∀ (content role : String),
      classify_message_importance content role ≤ 4 ∧
      determine_memory_type (classify_message_importance content role) 0 = "short") ∧
    classify_message_importance "attack" "player" = 4 := by
  constructor
  · intro content role
    have h4 : classify_message_importance content role ≤ 4 := by
      unfold classify_message_importance
      split_ifs <;> norm_num [min_def]
    refine ⟨h4, ?_⟩
    unfold determine_memory_type
    rw [if_neg (by linarith), if_neg (by linarith), if_pos (by norm_num)]
  · simp only [classify_message_importance]
    norm_num
    rw [if_pos ⟨"attack", by decide, by decide⟩]
    exact min_eq_left (by norm_num)

/-- C5: for every message text and every role, the score returned by
`classify_message_importance` lies in the interval [1.0, 10.0] (never below
the base score 1.0; the `min(…, 10.0)` cap silently limits any excess
instead of rejecting it). -/
theorem classify_score_in_range (content role : String) :
    1 ≤ classify_message_importance content role ∧
    classify_message_importance content role ≤ 10 := by
  unfold classify_message_importance
  constructor
  · split_ifs <;> norm_num [min_def]
  · split_ifs <;> norm_num [min_def]

/-!
Claim C6: the Context Assembler's single-pass token trim.
-/

/-- C6: if the estimated token count fits the budget the context is returned
unmodified; otherwise the result is the fixed single-pass trim — full
`story_setup`, `recent_context` cut to 5, `important_memories` to 4,
`conversation_summary` to 2 — with no further trimming. -/
theorem trim_context_spec (context : PromptContext) (max_tokens : Nat) :
    (contextTokens context ≤ max_tokens →
      trim_context_to_token_limit context max_tokens = context) ∧
    (max_tokens < contextTokens context →
      trim_context_to_token_limit context max_tokens =
        { story_setup := context.story_setup
          recent_context := context.recent_context.take 5
          important_memories := context.important_memories.take 4
          conversation_summary := context.conversation_summary.take 2 } ∧
      (trim_context_to_token_limit context max_tokens).story_setup
        = context.story_setup ∧
      (trim_context_to_token_limit context max_tokens).recent_context.length ≤ 5 ∧
      (trim_context_to_token_limit context max_tokens).important_memories.length ≤ 4 ∧
      (trim_context_to_token_limit context max_tokens).conversation_summary.length ≤ 2) := by
  constructor
  · intro h
    simp [trim_context_to_token_limit, h]
  · intro h
    have hn : ¬ contextTokens context ≤ max_tokens := by omega
    refine ⟨by simp [trim_context_to_token_limit, hn], ?_, ?_, ?_, ?_⟩ <;>
      simp [trim_context_to_token_limit, hn, List.length_take]

/-- Concrete context for the C6 witness: over any zero budget, under a large
one. -/
def trimCtxExample : PromptContext :=
  { story_setup := ["The Hollow Crown", "fantasy", "a drowned valley", "The gate stands open"]
    recent_context := [["player", "I go north"], ["ai", "The road bends east."]]
    important_memories := []
    conversation_summary := [] }

/-- Witness for C6 at a concrete context: the under-budget case returns it
unchanged, the over-budget case obeys the trim bounds. -/
theorem trim_context_spec_witness :
    trim_context_to_token_limit trimCtxExample 1000 = trimCtxExample ∧
    (trim_context_to_token_limit trimCtxExample 0).recent_context.length ≤ 5 :=
  ⟨(trim_context_spec trimCtxExample 1000).1 (by decide),
   ((trim_context_spec trimCtxExample 0).2 (by decide)).2.2.1⟩

/-!
Claim C7: cleanup deletes only under the conjunction of all three conditions.
-/

/-- C7: `cleanup_old_memories` deletes a fact only when it was created before
the cutoff AND has importance below 4.0 AND was last referenced before the
cutoff; in particular a fact referenced at or after the cutoff always
survives, regardless of its importance score. -/
theorem cleanup_requires_all_three (memories : List StoryMemory)
    (now days_old : Int) (m : StoryMemory) (hm : m ∈ memories) :
    (m ∈ (cleanup_old_memories memories now days_old).1 ↔
      ¬(m.created_at < now - days_old * 86400 ∧ m.importance_score < 4 ∧
        m.last_referenced < now - days_old * 86400)) ∧
    (now - days_old * 86400 ≤ m.last_referenced →
      m ∈ (cleanup_old_memories memories now days_old).1) := by
  have hiff : m ∈ (cleanup_old_memories memories now days_old).1 ↔
      ¬(m.created_at < now - days_old * 86400 ∧ m.importance_score < 4 ∧
        m.last_referenced < now - days_old * 86400) := by
    simp only [cleanup_old_memories, List.mem_filter, hm, true_and, Bool.not_eq_true',
      Bool.and_eq_false_iff, decide_eq_false_iff_not, Bool.and_eq_true, decide_eq_true_eq]
    tauto
  refine ⟨hiff, fun h => hiff.mpr ?_⟩
  intro hall
  exact absurd hall.2.2 (not_lt.mpr h)

/-- Concrete fact for the C7 witness: ancient and unimportant, but referenced
now. -/
def recentlyReferencedFact : StoryMemory :=
  { story_id := "s", memory_type := "event", title := "Event: the bells...",
    content := "Important event: the bells rang", importance_score := 1,
    relevance_tags := ["event", "important"], source_message_ids := ["m9"],
    created_at := -100000000, last_referenced := 0 }

/-- Witness for C7 at a concrete table: a low-importance, 30-day-old fact
survives cleanup because it was referenced within the window. -/
theorem cleanup_requires_all_three_witness :
    recentlyReferencedFact ∈
      (cleanup_old_memories [recentlyReferencedFact] 0 30).1 :=
  (cleanup_requires_all_three [recentlyReferencedFact] 0 30
    recentlyReferencedFact (by simp)).2 (by decide)

/-!
Claim C1: what the Memory Extractor yields on the narrator text
`"You enter a dark cave. Suddenly a dragon appears and roars."`. The
location pass matches (`you enter a dark cave.` gives the phrase
`dark cave`), but none of the extractor's event patterns — `you
defeat/kill/destroy …`, `you find/discover/obtain/gain …`, `you
learn/realize/understand …`, `something happens/occurs/changes …` — matches
`suddenly a dragon appears and roars`; the `suddenly …` pattern exists only
in the Conversation Compactor, whose fragments are summary text, not
MemoryFacts.
-/

/-- The narrator text of the end-to-end extraction scenario. -/
def dragonText : String := "You enter a dark cave. Suddenly a dragon appears and roars."

/-- The ai-role message holding `dragonText`. -/
def dragonMsg : Message :=
  { id := "m1", conversation_id := "c1", role := "ai", content := dragonText,
    created_at := 0 }

/-- The conversation of the extraction scenario. -/
def dragonConv : Conversation := { id := "c1", story_id := "s1" }

/-- The facts the Memory Extractor yields on the scenario conversation. -/
def dragonFacts : List StoryMemory :=
  extract_memories_from_conversation (some dragonConv) [dragonMsg] 0

/-- C1 counterexample: the extractor yields no MemoryFact of memory_type
`"event"` on the scenario text, so the claimed event fact from
"suddenly a dragon appears…" does not exist. -/
theorem dragon_yields_no_event_fact :
    ¬ ∃ f ∈ dragonFacts, f.memory_type = "event" := by decide

/-- C1 amended: on the scenario text the extractor yields at least one
MemoryFact of memory_type `"location"` (from "you enter a dark cave"), and
no fact of memory_type `"event"`, because the extractor's event patterns do
not cover "suddenly …" sentences. -/
theorem dragon_yields_location_fact_only :
    (∃ f ∈ dragonFacts, f.memory_type = "location") ∧
    ∀ f ∈ dragonFacts, f.memory_type ≠ "event" := by decide

/-!
Claim C3: the message range covered by a summary. Message ids are random
UUID4 strings, so the lexicographic `Message.id.between(start_id, end_id)`
filter of an explicit range selects a set of messages that need not be
contiguous in creation order; nothing checks overlap with other summaries
either. Without an explicit range the summary covers the conversation's
whole message list in creation order.
-/

/-- A message whose random id sorts low but was created first. -/
def msgA : Message :=
  { id := "a", conversation_id := "c", role := "player", content := "x", created_at := 0 }

/-- A message whose random id sorts high but was created second. -/
def msgZ : Message :=
  { id := "z", conversation_id := "c", role := "player", content := "y", created_at := 1 }

/-- A message whose random id sorts low but was created third. -/
def msgB : Message :=
  { id := "b", conversation_id := "c", role := "player", content := "z", created_at := 2 }

/-- The conversation of the range scenario. -/
def rangeConv : Conversation := { id := "c", story_id := "s" }

/-- C3 counterexample: `create_summary` with the explicit range
`("a", "b")` produces a summary, yet the set of messages it covers —
the first and third message of the conversation, skipping the second,
whose random id falls outside the lexicographic interval — is not a
contiguous segment of the conversation's messages in creation order. -/
theorem ranged_summary_not_contiguous :
    (create_summary (some rangeConv) [msgA, msgZ, msgB] (some ("a", "b"))).isSome = true ∧
    ¬ (selectMessages [msgA, msgZ, msgB] "c" (some ("a", "b")) <:+:
        sortByCreated ([msgA, msgZ, msgB].filter (fun m => m.conversation_id == "c"))) := by
  decide

/-- C3 amended: a summary created without an explicit range covers exactly
the conversation's full message list in creation order — a contiguous (in
fact complete) segment — and its `original_message_count` is the
conversation's message count; with an explicit `(start_id, end_id)` range
the covered set is a lexicographic id interval, which need not be contiguous
in creation order because ids are random UUIDs. -/
theorem unranged_summary_covers_whole_conversation
    (conv : Conversation) (allMsgs : List Message) (s : MessageSummary)
    (h : create_summary (some conv) allMsgs none = some s) :
    s.original_message_count =
      (allMsgs.filter (fun m => m.conversation_id == conv.id)).length ∧
    selectMessages allMsgs conv.id none <:+:
      sortByCreated (allMsgs.filter (fun m => m.conversation_id == conv.id)) := by
  have hsel2 : selectMessages allMsgs conv.id none =
      sortByCreated (allMsgs.filter (fun m => m.conversation_id == conv.id)) := rfl
  constructor
  · have hlen : (selectMessages allMsgs conv.id none).length =
        (allMsgs.filter (fun m => m.conversation_id == conv.id)).length := by
      rw [hsel2]
      exact List.length_insertionSort _ _
    cases hsel : selectMessages allMsgs conv.id none with
    | nil => simp [create_summary, hsel] at h
    | cons m0 rest =>
      rw [hsel] at hlen
      simp only [create_summary, hsel, Option.some.injEq] at h
      subst h
      exact hlen
  · rw [hsel2]

/-- Fallback summary record for reading off `Option.getD` results in
witnesses. -/
def dummySummary : MessageSummary :=
  { conversation_id := "", summary_text := "", original_message_count := 0,
    start_message_id := "", end_message_id := "", time_range_start := 0,
    time_range_end := 0, compression_ratio := 0 }

/-- Witness for the amended C3 theorem at a concrete conversation. -/
theorem unranged_summary_covers_whole_conversation_witness :
    ∃ s, create_summary (some rangeConv) [msgA, msgZ, msgB] none = some s ∧
      s.original_message_count =
        ([msgA, msgZ, msgB].filter (fun m => m.conversation_id == rangeConv.id)).length ∧
      selectMessages [msgA, msgZ, msgB] rangeConv.id none <:+:
        sortByCreated ([msgA, msgZ, msgB].filter (fun m => m.conversation_id == rangeConv.id)) := by
  cases hcs : create_summary (some rangeConv) [msgA, msgZ, msgB] none with
  | none =>
    have hs : (create_summary (some rangeConv) [msgA, msgZ, msgB] none).isSome = true := by
      decide
    rw [hcs] at hs
    simp at hs
  | some s =>
    obtain ⟨h1, h2⟩ :=
      unranged_summary_covers_whole_conversation rangeConv [msgA, msgZ, msgB] s hcs
    exact ⟨s, rfl, h1, h2⟩

/-!
Claim C8: consolidation of duplicate facts. The scenario holds — of two
same-key location facts with importances 8.0 and 5.0 exactly one survives,
with importance 8.0 and content containing both fragments — but the source
merges `source_message_ids` only inside `if additional_content:`, so when
every duplicate's content is already a substring of the keeper's content the
duplicates are deleted and their source references are dropped, not merged.
-/

/-- C8 amended: grouping two location facts with equal
`(memory_type, title[:20])` keys and importances 8.0 and 5.0, consolidation
deletes exactly one fact and keeps one with importance 8.0 whose content
contains both facts' contents as substrings; the duplicate's content and
source references are merged only when its content is not already a
substring of the keeper's content — otherwise the keeper is unchanged and
the duplicate's source references are dropped. -/
theorem consolidation_two_facts (f1 f2 : StoryMemory)
    (ht1 : f1.memory_type = "location") (ht2 : f2.memory_type = "location")
    (hk : memKey f2 = memKey f1)
    (h1 : f1.importance_score = 8) (h2 : f2.importance_score = 5) :
    (consolidate_duplicate_memories [f1, f2]).2 = 1 ∧
    ∃ g, (consolidate_duplicate_memories [f1, f2]).1 = [g] ∧
      g.importance_score = 8 ∧
      containsSub f1.content.data g.content.data = true ∧
      containsSub f2.content.data g.content.data = true ∧
      (containsSub f2.content.data f1.content.data = true → g = f1) ∧
      (containsSub f2.content.data f1.content.data = false →
        g.content = f1.content ++ " | " ++ f2.content ∧
        g.source_message_ids =
          dedupKeepFirst (f1.source_message_ids ++ f2.source_message_ids)) := by
  have hkeys : dedupKeepFirst [memKey f1, memKey f2] = [memKey f1] := by
    simp [dedupKeepFirst, hk]
  have hgroup : [f1, f2].filter (fun m => decide (memKey m = memKey f1)) = [f1, f2] := by
    simp [hk]
  have hlt : ¬ f1.importance_score < f2.importance_score := by
    rw [h1, h2]; norm_num
  have hsort : sortByImportanceDesc [f1, f2] = [f1, f2] := by
    simp [sortByImportanceDesc, insertByImportanceDesc, hlt]
  have hcons : consolidate_duplicate_memories [f1, f2] =
      ((mergeGroup [f1, f2]).1, (mergeGroup [f1, f2]).2) := by
    simp [consolidate_duplicate_memories, hkeys, hgroup]
  cases hc : containsSub f2.content.data f1.content.data with
  | true =>
    have hm : mergeGroup [f1, f2] = ([f1], 1) := by
      simp [mergeGroup, hsort, hc]
    rw [hcons, hm]
    exact ⟨rfl, f1, rfl, h1, containsSub_self _, hc, fun _ => rfl, fun hf => absurd hf (by simp)⟩
  | false =>
    have hm : mergeGroup [f1, f2] =
        ([{ f1 with
            content := f1.content ++ " | " ++ f2.content
            source_message_ids :=
              dedupKeepFirst (f1.source_message_ids ++ f2.source_message_ids) }], 1) := by
      simp [mergeGroup, hsort, hc, pyJoin]
    rw [hcons, hm]
    refine ⟨rfl, _, rfl, h1, ?_, ?_, fun ht => absurd ht (by simp), fun _ => ⟨rfl, rfl⟩⟩
    · show containsSub f1.content.data ((f1.content ++ " | " ++ f2.content).data) = true
      rw [String.data_append, String.data_append, List.append_assoc]
      exact containsSub_append_left _ _
    · show containsSub f2.content.data ((f1.content ++ " | " ++ f2.content).data) = true
      rw [String.data_append]
      exact containsSub_append_right _ _

/-- First concrete fact of the C8 witness scenario (importance 8.0). -/
def wFact1 : StoryMemory :=
  { story_id := "s", memory_type := "location", title := "Location: Dark Cavern A",
    content := "A deep cavern.", importance_score := 8,
    relevance_tags := ["location"], source_message_ids := ["m1"] }

/-- Second concrete fact of the C8 witness scenario (importance 5.0, same
20-character title prefix). -/
def wFact2 : StoryMemory :=
  { story_id := "s", memory_type := "location", title := "Location: Dark Cavern B",
    content := "A pit of bones.", importance_score := 5,
    relevance_tags := ["location"], source_message_ids := ["m2"] }

/-- Witness for the amended C8 theorem at the concrete 8.0/5.0 pair. -/
theorem consolidation_two_facts_witness :
    (consolidate_duplicate_memories [wFact1, wFact2]).2 = 1 ∧
    ∃ g, (consolidate_duplicate_memories [wFact1, wFact2]).1 = [g] ∧
      g.importance_score = 8 ∧
      containsSub wFact1.content.data g.content.data = true ∧
      containsSub wFact2.content.data g.content.data = true ∧
      (containsSub wFact2.content.data wFact1.content.data = true → g = wFact1) ∧
      (containsSub wFact2.content.data wFact1.content.data = false →
        g.content = wFact1.content ++ " | " ++ wFact2.content ∧
        g.source_message_ids =
          dedupKeepFirst (wFact1.source_message_ids ++ wFact2.source_message_ids)) :=
  consolidation_two_facts wFact1 wFact2 rfl rfl (by decide) rfl rfl

/-- Keeper fact of the C8 counterexample: its content already contains the
duplicate's content as a substring. -/
def dropFact1 : StoryMemory :=
  { story_id := "s", memory_type := "location", title := "Location: Dark Cavern A",
    content := "A location in the story: dark cavern. Visited during the adventure.",
    importance_score := 8, relevance_tags := ["location"], source_message_ids := ["m1"] }

/-- Duplicate fact of the C8 counterexample, with its own source reference
`"m2"`. -/
def dropFact2 : StoryMemory :=
  { story_id := "s", memory_type := "location", title := "Location: Dark Cavern B",
    content := "dark cavern", importance_score := 5,
    relevance_tags := ["location"], source_message_ids := ["m2"] }

/-- C8 counterexample: consolidation of this same-key 8.0/5.0 pair does NOT
merge source references as a set — the duplicate's content is a substring of
the keeper's, so the keeper is left unchanged and the deleted duplicate's
source reference `"m2"` is dropped from the surviving facts. -/
theorem consolidation_drops_source_refs :
    (consolidate_duplicate_memories [dropFact1, dropFact2]).1 = [dropFact1] ∧
    "m2" ∈ dropFact2.source_message_ids ∧
    ∀ g ∈ (consolidate_duplicate_memories [dropFact1, dropFact2]).1,
      "m2" ∉ g.source_message_ids := by
  decide

/-!
Claim C9: empty ranges yield null and nothing persisted; compression ratio
of a produced summary is positive when the summary text is nonempty and 0
when it is empty.
-/

theorem extract_scene_info_empty : extract_scene_info "" = "" := rfl

theorem extract_events_empty : extract_events "" = [] := rfl

theorem extract_player_action_empty : extract_player_action "" = "" := rfl

theorem summaryStep_empty_content (st : List String × String) (msg : Message)
    (h : msg.content = "") : summaryStep st msg = st := by
  unfold summaryStep
  rw [h]
  split_ifs with h1 h2
  · simp [extract_scene_info_empty, extract_events_empty]
  · simp [extract_player_action_empty]
  · rfl

theorem foldl_summaryStep_empty (messages : List Message)
    (h : ∀ m ∈ messages, m.content = "") (st : List String × String) :
    messages.foldl summaryStep st = st := by
  induction messages generalizing st with
  | nil => rfl
  | cons m rest ih =>
    rw [List.foldl_cons, summaryStep_empty_content st m (h m (by simp))]
    exact ih (fun x hx => h x (by simp [hx])) st

/-- A summary text can only be built out of message content: when every
content is empty, `_generate_summary_text` returns the empty string. -/
theorem generate_summary_text_all_empty (messages : List Message)
    (h : ∀ m ∈ messages, m.content = "") : generate_summary_text messages = "" := by
  unfold generate_summary_text
  split_ifs with he
  · rfl
  · rw [foldl_summaryStep_empty messages h ([], "")]
    rfl

theorem string_eq_empty_of_length_eq_zero {s : String} (h : s.length = 0) : s = "" := by
  apply String.ext
  have h2 : s.data.length = 0 := h
  exact List.length_eq_zero.mp h2

/-- C9: when the selected message range is empty, `create_summary` returns
null and persists nothing; every summary it does produce has
`compression_ratio > 0` when its summary text is nonempty, and
`compression_ratio = 0` (rather than an error) when the summary text is
empty. -/
theorem create_summary_null_and_ratio (conv : Conversation) (allMsgs : List Message)
    (message_range : Option (String × String)) :
    (selectMessages allMsgs conv.id message_range = [] →
      create_summary (some conv) allMsgs message_range = none) ∧
    (∀ s, create_summary (some conv) allMsgs message_range = some s →
      (s.summary_text ≠ "" → 0 < s.compression_ratio) ∧
      (s.summary_text = "" → s.compression_ratio = 0)) := by
  constructor
  · intro h
    simp [create_summary, h]
  · intro s hs
    cases hsel : selectMessages allMsgs conv.id message_range with
    | nil => simp [create_summary, hsel] at hs
    | cons m0 rest =>
      simp only [create_summary, hsel, Option.some.injEq] at hs
      subst hs
      have htext : (mkSummary conv.id m0 rest).summary_text =
          generate_summary_text (m0 :: rest) := rfl
      have hratio : (mkSummary conv.id m0 rest).compression_ratio =
          (if generate_summary_text (m0 :: rest) ≠ "" then
            ((Nat.cast (((m0 :: rest).map (fun m => m.content.length)).sum) : ℚ) /
              (Nat.cast ((generate_summary_text (m0 :: rest)).length) : ℚ))
          else 0) := rfl
      constructor
      · intro hne
        have hne2 : generate_summary_text (m0 :: rest) ≠ "" := by
          rw [htext] at hne
          exact hne
        rw [hratio, if_pos hne2]
        have horig : 0 < ((m0 :: rest).map (fun m => m.content.length)).sum := by
          by_contra h0
          push_neg at h0
          have hz : ((m0 :: rest).map (fun m => m.content.length)).sum = 0 :=
            Nat.le_zero.mp h0
          have hall : ∀ m ∈ m0 :: rest, m.content = "" := by
            intro m hm
            have hlz : m.content.length = 0 :=
              List.sum_eq_zero_iff.mp hz _ (List.mem_map_of_mem _ hm)
            exact string_eq_empty_of_length_eq_zero hlz
          exact hne2 (generate_summary_text_all_empty _ hall)
        have hlen : 0 < (generate_summary_text (m0 :: rest)).length := by
          rcases Nat.eq_zero_or_pos (generate_summary_text (m0 :: rest)).length with hz | hp
          · exact absurd (string_eq_empty_of_length_eq_zero hz) hne2
          · exact hp
        exact div_pos (by exact_mod_cast horig) (by exact_mod_cast hlen)
      · intro he
        rw [htext] at he
        rw [hratio, if_neg (by simp [he])]

/-- Conversation of the C9 witness. -/
def flowConv : Conversation := { id := "c", story_id := "s" }

/-- A narrator message whose text the Compactor can summarize (the
`suddenly …` event pattern matches), giving a nonempty summary text. -/
def witMsg : Message :=
  { id := "w1", conversation_id := "c", role := "ai",
    content := "Suddenly a dragon appears and roars.", created_at := 0 }

/-- Witness for C9: on the empty conversation the summary is null; on a
one-message conversation a summary is produced and its compression ratio is
positive. -/
theorem create_summary_null_and_ratio_witness :
    create_summary (some flowConv) [] none = none ∧
    ∃ s, create_summary (some flowConv) [witMsg] none = some s ∧
      s.summary_text ≠ "" ∧ 0 < s.compression_ratio := by
  constructor
  · exact (create_summary_null_and_ratio flowConv [] none).1 rfl
  · cases hcs : create_summary (some flowConv) [witMsg] none with
    | none =>
      have hs : (create_summary (some flowConv) [witMsg] none).isSome = true := by decide
      rw [hcs] at hs
      simp at hs
    | some s =>
      have hsel : selectMessages [witMsg] flowConv.id none = [witMsg] := by decide
      have hs2 : s = mkSummary flowConv.id witMsg [] := by
        have := hcs
        simp only [create_summary, hsel, Option.some.injEq] at this
        exact this.symm
      have hne : s.summary_text ≠ "" := by
        rw [hs2]
        show generate_summary_text [witMsg] ≠ ""
        decide
      exact ⟨s, rfl, hne,
        ((create_summary_null_and_ratio flowConv [witMsg] none).2 s hcs).1 hne⟩

/-!
Claim C2: the summarization trigger. `should_summarize_conversation` counts
ALL of the conversation's messages (`count >= 20`), not the messages since
the last summary, so every exchange from the 10th on produces a new summary;
the 20-message scenario itself does yield exactly one summary with
`original_message_count = 20`.
-/

theorem should_summarize_false_of_short (allMsgs : List Message) (cid : String)
    (h : allMsgs.length < 20) : should_summarize_conversation allMsgs cid = false := by
  simp only [should_summarize_conversation, decide_eq_false_iff_not, not_le]
  exact lt_of_le_of_lt (List.length_filter_le _ _) h

theorem processExchange_msgs (conv : Conversation) (st : ConvState)
    (u a pid aid : String) (t : Int) :
    (processExchange conv st u a pid aid t).msgs =
      st.msgs ++ [mkPlayerMessage conv u pid t, mkAiMessage conv a aid t] := rfl

theorem processExchange_msgs_length (conv : Conversation) (st : ConvState)
    (u a pid aid : String) (t : Int) :
    (processExchange conv st u a pid aid t).msgs.length = st.msgs.length + 2 := by
  rw [processExchange_msgs]
  simp

theorem processExchange_cid (conv : Conversation) (st : ConvState)
    (u a pid aid : String) (t : Int)
    (h : ∀ m ∈ st.msgs, m.conversation_id = conv.id) :
    ∀ m ∈ (processExchange conv st u a pid aid t).msgs,
      m.conversation_id = conv.id := by
  intro m hm
  rw [processExchange_msgs] at hm
  rcases List.mem_append.mp hm with hm | hm
  · exact h m hm
  · simp only [List.mem_cons, List.not_mem_nil, or_false] at hm
    rcases hm with hm | hm <;> (rw [hm]; rfl)

theorem processExchange_summaries_small (conv : Conversation) (st : ConvState)
    (u a pid aid : String) (t : Int) (h : st.msgs.length + 2 < 20) :
    (processExchange conv st u a pid aid t).summaries = st.summaries := by
  simp only [processExchange]
  rw [should_summarize_false_of_short _ _ (by simpa using h)]
  simp

/-- Unfolding of a one-exchange run. -/
theorem runExchanges_single (conv : Conversation) (st : ConvState) (k : Nat)
    (e : String × String) :
    runExchanges conv st k [e] =
      processExchange conv st e.1 e.2 ("m" ++ toString (2 * k))
        ("m" ++ toString (2 * k + 1)) (2 * (k : Int)) := rfl

theorem runExchanges_append (conv : Conversation) (st : ConvState) (k : Nat)
    (l1 l2 : List (String × String)) :
    runExchanges conv st k (l1 ++ l2) =
      runExchanges conv (runExchanges conv st k l1) (k + l1.length) l2 := by
  induction l1 generalizing st k with
  | nil => simp [runExchanges]
  | cons e rest ih =>
    simp only [List.cons_append, runExchanges, List.length_cons, List.append_eq]
    rw [ih, show k + (rest.length + 1) = k + 1 + rest.length from by omega]

theorem runExchanges_msgs_length (conv : Conversation) (st : ConvState) (k : Nat)
    (exs : List (String × String)) :
    (runExchanges conv st k exs).msgs.length = st.msgs.length + 2 * exs.length := by
  induction exs generalizing st k with
  | nil => simp [runExchanges]
  | cons e rest ih =>
    simp only [runExchanges]
    rw [ih, processExchange_msgs_length]
    simp
    omega

theorem runExchanges_cid (conv : Conversation) (st : ConvState) (k : Nat)
    (exs : List (String × String))
    (h : ∀ m ∈ st.msgs, m.conversation_id = conv.id) :
    ∀ m ∈ (runExchanges conv st k exs).msgs, m.conversation_id = conv.id := by
  induction exs generalizing st k with
  | nil => simpa [runExchanges] using h
  | cons e rest ih =>
    simp only [runExchanges]
    exact ih _ _ (processExchange_cid _ _ _ _ _ _ _ h)

theorem runExchanges_no_summary (conv : Conversation) (st : ConvState) (k : Nat)
    (exs : List (String × String))
    (h : st.msgs.length + 2 * exs.length < 20) :
    (runExchanges conv st k exs).summaries = st.summaries := by
  induction exs generalizing st k with
  | nil => simp [runExchanges]
  | cons e rest ih =>
    simp only [runExchanges]
    rw [ih _ _ (by rw [processExchange_msgs_length]; simp at h ⊢; omega)]
    exact processExchange_summaries_small _ _ _ _ _ _ _ (by simp at h ⊢; omega)

/-- A summary over a nonempty conversation whose messages all belong to it:
produced, and counting every message. -/
theorem create_summary_full_conversation (conv : Conversation) (allMsgs : List Message)
    (hcid : ∀ m ∈ allMsgs, m.conversation_id = conv.id) (hne : allMsgs ≠ []) :
    ∃ s, create_summary (some conv) allMsgs none = some s ∧
      s.original_message_count = allMsgs.length := by
  have hfilter : allMsgs.filter (fun m => m.conversation_id == conv.id) = allMsgs :=
    List.filter_eq_self.mpr (fun a ha => by simp [hcid a ha])
  have hsel : selectMessages allMsgs conv.id none = sortByCreated allMsgs := by
    unfold selectMessages
    rw [hfilter]
  have hslen : (sortByCreated allMsgs).length = allMsgs.length :=
    List.length_insertionSort _ _
  cases hs : sortByCreated allMsgs with
  | nil =>
    rw [hs] at hslen
    exact absurd (List.length_eq_zero.mp hslen.symm) hne
  | cons m0 rest =>
    refine ⟨mkSummary conv.id m0 rest, ?_, ?_⟩
    · rw [hs] at hsel
      simp [create_summary, hsel]
    · show (m0 :: rest).length = allMsgs.length
      rw [← hs]
      exact hslen

theorem processExchange_summaries_trigger (conv : Conversation) (st : ConvState)
    (u a pid aid : String) (t : Int)
    (hcid : ∀ m ∈ st.msgs, m.conversation_id = conv.id)
    (hge : 18 ≤ st.msgs.length) :
    ∃ s, (processExchange conv st u a pid aid t).summaries = st.summaries ++ [s] ∧
      s.original_message_count = st.msgs.length + 2 := by
  have hcid2 : ∀ m ∈ st.msgs ++ [mkPlayerMessage conv u pid t, mkAiMessage conv a aid t],
      m.conversation_id = conv.id :=
    processExchange_cid conv st u a pid aid t hcid
  have hfil : (st.msgs ++ [mkPlayerMessage conv u pid t, mkAiMessage conv a aid t]).filter
      (fun m => m.conversation_id == conv.id) =
      st.msgs ++ [mkPlayerMessage conv u pid t, mkAiMessage conv a aid t] :=
    List.filter_eq_self.mpr (fun m hm => by simp [hcid2 m hm])
  have hss : should_summarize_conversation
      (st.msgs ++ [mkPlayerMessage conv u pid t, mkAiMessage conv a aid t]) conv.id = true := by
    simp only [should_summarize_conversation, hfil, decide_eq_true_eq]
    simp
    omega
  obtain ⟨s, hcs, hcount⟩ := create_summary_full_conversation conv
    (st.msgs ++ [mkPlayerMessage conv u pid t, mkAiMessage conv a aid t]) hcid2 (by simp)
  refine ⟨s, ?_, by simpa using hcount⟩
  simp only [processExchange]
  rw [hss]
  simp [hcs]

/-- C2 amended: the caller summarizes after an exchange whenever the
conversation's TOTAL message count is at least 20, regardless of how many
messages accumulated since the last summary; in the 20-message scenario —
ten alternating player/narrator exchanges on a fresh conversation — exactly
one ConversationSummary is created, with `original_message_count = 20`. -/
theorem twenty_messages_exactly_one_summary (conv : Conversation)
    (exs : List (String × String)) (hlen : exs.length = 10) :
    (runExchanges conv { msgs := [], memories := [], summaries := [] } 0 exs).summaries.length = 1 ∧
    ∀ s ∈ (runExchanges conv { msgs := [], memories := [], summaries := [] } 0 exs).summaries,
      s.original_message_count = 20 := by
  have hne : exs ≠ [] := by
    intro h0
    rw [h0] at hlen
    exact absurd hlen (by decide)
  obtain ⟨l1, e, hsplit⟩ : ∃ l1 e, exs = l1 ++ [e] :=
    ⟨exs.dropLast, exs.getLast hne, by rw [List.dropLast_append_getLast hne]⟩
  subst hsplit
  have hl1 : l1.length = 9 := by
    simp at hlen
    omega
  rw [runExchanges_append]
  have h9len : (runExchanges conv { msgs := [], memories := [], summaries := [] } 0 l1).msgs.length = 18 := by
    rw [runExchanges_msgs_length]
    simp [hl1]
  have h9cid : ∀ m ∈ (runExchanges conv { msgs := [], memories := [], summaries := [] } 0 l1).msgs,
      m.conversation_id = conv.id :=
    runExchanges_cid _ _ _ _ (by intro m hm; cases hm)
  have h9sum : (runExchanges conv { msgs := [], memories := [], summaries := [] } 0 l1).summaries = [] :=
    runExchanges_no_summary _ _ _ _ (by simp [hl1])
  rw [runExchanges_single]
  obtain ⟨s, hs, hcount⟩ :=
    processExchange_summaries_trigger conv
      (runExchanges conv { msgs := [], memories := [], summaries := [] } 0 l1)
      e.1 e.2 _ _ _ h9cid h9len.ge
  rw [hs, h9sum]
  refine ⟨rfl, ?_⟩
  intro s2 hs2
  simp only [List.nil_append, List.mem_singleton] at hs2
  rw [hs2, hcount, h9len]

/-- Witness for the amended C2 theorem: ten concrete alternating exchanges. -/
theorem twenty_messages_exactly_one_summary_witness :
    (runExchanges flowConv { msgs := [], memories := [], summaries := [] } 0
        (List.replicate 10 ("hi", "ok"))).summaries.length = 1 ∧
    ∀ s ∈ (runExchanges flowConv { msgs := [], memories := [], summaries := [] } 0
        (List.replicate 10 ("hi", "ok"))).summaries,
      s.original_message_count = 20 :=
  twenty_messages_exactly_one_summary flowConv (List.replicate 10 ("hi", "ok")) (by decide)

/-- Eleven exchanges (22 messages) against one fresh conversation. -/
def elevenRun : ConvState :=
  runExchanges flowConv { msgs := [], memories := [], summaries := [] } 0
    (List.replicate 11 ("hi", "ok"))

/-- C2 counterexample: after eleven exchanges two summaries exist, covering
20 and then 22 messages — the second was created when only 22 − 20 = 2
messages (fewer than 20) had accumulated since the first summary, because
`should_summarize_conversation` compares the conversation's TOTAL message
count with 20, not the count since the last summary. -/
theorem summary_retrigger_after_two_messages :
    elevenRun.summaries.map (fun s => s.original_message_count) = [20, 22] ∧
    22 - 20 < 20 := by decide

/-!
Claim C10: the Memory Extractor reads only ai-role message text. Each
extraction pass skips non-ai messages, and stable sorting commutes with
filtering, so two conversations with the same ai messages extract the same
facts whatever their player messages are.
-/

instance : IsTotal Message (fun a b => a.created_at ≤ b.created_at) :=
  ⟨fun a b => le_total a.created_at b.created_at⟩

instance : IsTrans Message (fun a b => a.created_at ≤ b.created_at) :=
  ⟨fun _ _ _ h1 h2 => le_trans h1 h2⟩

theorem orderedInsert_cons_of_le (a : Message) (l : List Message)
    (h : ∀ x ∈ l, a.created_at ≤ x.created_at) :
    List.orderedInsert (fun x y => x.created_at ≤ y.created_at) a l = a :: l := by
  cases l with
  | nil => rfl
  | cons x xs => simp [List.orderedInsert, h x (List.mem_cons_self x xs)]

theorem filter_orderedInsert (p : Message → Bool) (a : Message) (l : List Message)
    (hs : l.Sorted (fun x y => x.created_at ≤ y.created_at)) :
    (List.orderedInsert (fun x y => x.created_at ≤ y.created_at) a l).filter p =
      if p a then
        List.orderedInsert (fun x y => x.created_at ≤ y.created_at) a (l.filter p)
      else l.filter p := by
  induction l with
  | nil =>
    cases hpa : p a <;> simp [List.orderedInsert, hpa]
  | cons x xs ih =>
    rw [List.sorted_cons] at hs
    obtain ⟨hx, hxs⟩ := hs
    by_cases hax : a.created_at ≤ x.created_at
    · simp only [List.orderedInsert, if_pos hax]
      have hall : ∀ y ∈ (x :: xs).filter p, a.created_at ≤ y.created_at := by
        intro y hy
        rcases List.mem_cons.mp (List.mem_of_mem_filter hy) with h | h
        · rw [h]; exact hax
        · exact le_trans hax (hx y h)
      cases hpa : p a
      · simp [List.filter_cons, hpa]
      · rw [orderedInsert_cons_of_le a _ hall]
        simp [List.filter_cons, hpa]
    · simp only [List.orderedInsert, if_neg hax]
      rw [List.filter_cons, ih hxs, List.filter_cons]
      cases hpa : p a <;> cases hpx : p x <;>
        simp [hpa, hpx, List.orderedInsert, hax]

theorem sortByCreated_cons (a : Message) (l : List Message) :
    sortByCreated (a :: l) =
      List.orderedInsert (fun x y => x.created_at ≤ y.created_at) a (sortByCreated l) := rfl

/-- Filtering commutes with the stable creation-order sort. -/
theorem filter_sortByCreated (p : Message → Bool) (l : List Message) :
    (sortByCreated l).filter p = sortByCreated (l.filter p) := by
  induction l with
  | nil => rfl
  | cons a l ih =>
    have hsorted : (sortByCreated l).Sorted (fun x y => x.created_at ≤ y.created_at) :=
      List.sorted_insertionSort _ l
    rw [sortByCreated_cons, filter_orderedInsert p a _ hsorted, List.filter_cons]
    cases hpa : p a
    · rw [if_neg (by simp), if_neg (by simp), ih]
    · rw [if_pos rfl, if_pos rfl, ih, sortByCreated_cons]

theorem flatMap_ai_skip (f : Message → List StoryMemory) (msgs : List Message) :
    (msgs.flatMap (fun m => if m.role ≠ "ai" then [] else f m)) =
      ((msgs.filter (fun m => m.role == "ai")).flatMap f) := by
  induction msgs with
  | nil => rfl
  | cons m rest ih =>
    rw [List.flatMap_cons, List.filter_cons, ih]
    by_cases hm : m.role = "ai"
    · rw [if_neg (by simp [hm]), if_pos (by simp [hm]), List.flatMap_cons]
    · rw [if_pos (by simp [hm]), if_neg (by simp [hm]), List.nil_append]

theorem filter_ai_idem (msgs : List Message) :
    (msgs.filter (fun m => m.role == "ai")).filter (fun m => m.role == "ai") =
      msgs.filter (fun m => m.role == "ai") :=
  List.filter_eq_self.mpr (fun a ha => (List.mem_filter.mp ha).2)

theorem extract_character_memories_filter_ai (msgs : List Message)
    (sid : String) (now : Int) :
    extract_character_memories msgs sid now =
      extract_character_memories (msgs.filter (fun m => m.role == "ai")) sid now := by
  unfold extract_character_memories
  rw [flatMap_ai_skip, flatMap_ai_skip, filter_ai_idem]

theorem extract_location_memories_filter_ai (msgs : List Message)
    (sid : String) (now : Int) :
    extract_location_memories msgs sid now =
      extract_location_memories (msgs.filter (fun m => m.role == "ai")) sid now := by
  unfold extract_location_memories
  rw [flatMap_ai_skip, flatMap_ai_skip, filter_ai_idem]

theorem extract_event_memories_filter_ai (msgs : List Message)
    (sid : String) (now : Int) :
    extract_event_memories msgs sid now =
      extract_event_memories (msgs.filter (fun m => m.role == "ai")) sid now := by
  unfold extract_event_memories
  rw [flatMap_ai_skip, flatMap_ai_skip, filter_ai_idem]

theorem extract_rule_memories_filter_ai (msgs : List Message)
    (sid : String) (now : Int) :
    extract_rule_memories msgs sid now =
      extract_rule_memories (msgs.filter (fun m => m.role == "ai")) sid now := by
  unfold extract_rule_memories
  rw [flatMap_ai_skip, flatMap_ai_skip, filter_ai_idem]

/-- C10: the Memory Extractor reads only ai-role message text — two
conversations whose ai-role messages coincide produce the same MemoryFacts,
however their player-role messages differ; player text never yields a
fact. -/
theorem extractor_reads_only_ai (conv : Conversation) (now : Int)
    (msgs1 msgs2 : List Message)
    (h : msgs1.filter (fun m => m.role == "ai") =
      msgs2.filter (fun m => m.role == "ai")) :
    extract_memories_from_conversation (some conv) msgs1 now =
      extract_memories_from_conversation (some conv) msgs2 now := by
  have comm : ∀ (l : List Message),
      (l.filter (fun m => m.conversation_id == conv.id)).filter (fun m => m.role == "ai") =
      (l.filter (fun m => m.role == "ai")).filter (fun m => m.conversation_id == conv.id) := by
    intro l
    rw [List.filter_filter, List.filter_filter]
    exact List.filter_congr (fun a _ => by rw [Bool.and_comm])
  have hkey :
      (sortByCreated (msgs1.filter (fun m => m.conversation_id == conv.id))).filter
        (fun m => m.role == "ai") =
      (sortByCreated (msgs2.filter (fun m => m.conversation_id == conv.id))).filter
        (fun m => m.role == "ai") := by
    rw [filter_sortByCreated, filter_sortByCreated, comm msgs1, comm msgs2, h]
  show extract_character_memories _ conv.story_id now
      ++ extract_location_memories _ conv.story_id now
      ++ extract_event_memories _ conv.story_id now
      ++ extract_rule_memories _ conv.story_id now
    = extract_character_memories _ conv.story_id now
      ++ extract_location_memories _ conv.story_id now
      ++ extract_event_memories _ conv.story_id now
      ++ extract_rule_memories _ conv.story_id now
  rw [extract_character_memories_filter_ai, extract_location_memories_filter_ai,
    extract_event_memories_filter_ai, extract_rule_memories_filter_ai, hkey,
    ← extract_character_memories_filter_ai, ← extract_location_memories_filter_ai,
    ← extract_event_memories_filter_ai, ← extract_rule_memories_filter_ai]

/-- The shared ai-role message of the C10 witness. -/
def aiMsgShared : Message :=
  { id := "a1", conversation_id := "c", role := "ai", content := dragonText,
    created_at := 5 }

/-- A player message present only in the first conversation. -/
def playerMsg1 : Message :=
  { id := "p1", conversation_id := "c", role := "player",
    content := "I attack the dragon", created_at := 4 }

/-- A player message present only in the second conversation. -/
def playerMsg2 : Message :=
  { id := "p2", conversation_id := "c", role := "player",
    content := "I run away", created_at := 6 }

/-- Witness for C10: two concrete conversations sharing only their ai
message extract identical facts. -/
theorem extractor_reads_only_ai_witness :
    extract_memories_from_conversation (some flowConv) [playerMsg1, aiMsgShared] 0 =
      extract_memories_from_conversation (some flowConv) [aiMsgShared, playerMsg2] 0 :=
  extractor_reads_only_ai flowConv 0 [playerMsg1, aiMsgShared] [aiMsgShared, playerMsg2]
    (by decide)
